import Mathlib

/-!
# Verification of the weiquant-site quantitative core

Shallow embedding of the quantitative calculators of the repository:

* the professional risk scorer (`ProfessionalRiskAssessment`, `src/unnamed/part_000`),
* the backtest engine and its four strategies (`src/js/backtest.js`),
* the portfolio analyzer (`src/js/portfolio-analysis.js`),
* the Monte Carlo input validation (`performMonteCarloSimulation`,
  `src/js/quant-ui.js`) and the Monte Carlo result statistics
  (`runMonteCarloSimulation`, `src/unnamed/part_004`).

Conventions used throughout:

* JS numbers are modelled by `ℚ` (exact rational arithmetic).  Square roots,
  which appear only in volatility computations, are modelled by `Real.sqrt`
  on the cast value; definitions touching them are `noncomputable` but all
  guard conditions stay decidable.
* JS division by zero yields `NaN`/`Infinity`; in `ℚ` (and `ℝ`) division by
  zero yields `0`.  Wherever this difference could matter for a theorem the
  statement carries validity hypotheses, or the value is wrapped in `Option`
  (`none` modelling `NaN`), as noted at each definition.
* The JS idiom `x || d` (replace a falsy value, i.e. `0`, `NaN`, `null` or
  `undefined`, by the default `d`) is modelled by `jsOr` on `Option ℚ`.
* String payloads that only ever feed the UI (descriptions, colors, labels)
  are elided; lists of advisory records are modelled by their identifying
  category/type tags, with the triggering conditions embedded faithfully.
-/

/-- JS `x || d` for an optional numeric field: `null`/`undefined` and `0`
both fall back to the default. -/
def jsOr (x : Option ℚ) (d : ℚ) : ℚ :=
  match x with
  | none => d
  | some q => if q = 0 then d else q

/-- JS `x || d` for an optional count-valued field. -/
def jsOrNat (x : Option ℕ) (d : ℕ) : ℕ :=
  match x with
  | none => d
  | some n => if n = 0 then d else n

/-- JS `Math.round` on a (finite, nonnegative-or-not) number:
round half away from zero is `⌊x + 1/2⌋` for the values reached here. -/
def jsRound (q : ℚ) : ℤ := ⌊q + 1/2⌋

namespace RiskScorer

/-! ## `ProfessionalRiskAssessment` (src/unnamed/part_000)

The five component scores and the composite `calculateRiskScore`, plus the
`getRiskLevel` band classification. -/

/-- The input `marketData` object: a price series plus the optional numeric
fields the helpers read (each helper substitutes a fixed default via `||`). -/
structure MarketData where
  prices : List ℚ
  avgVolume : Option ℚ
  bidAskSpread : Option ℚ
  avgCorrelation : Option ℚ
  contagionIndicator : Option ℚ

/-- One entry of `portfolio.assets` (only `weight` is read). -/
structure PAsset where
  weight : ℚ

/-- The input `portfolio` object, with the fields the scorer reads. -/
structure RPortfolio where
  beta : Option ℚ
  hasHighYield : Bool
  hasEmergingMarkets : Bool
  hasCrypto : Bool
  assets : Option (List PAsset)
  size : ℚ

/-- The `newsAnalysis.sentiment` sub-object. -/
structure Sentiment where
  bearish : Option ℚ
  bullish : Option ℚ

/-- The optional `newsAnalysis` argument. -/
structure NewsAnalysis where
  sentiment : Option Sentiment
  sentimentVolatility : Option ℚ

/-- Source `calculateReturns`: `(data[i] - data[i-1]) / data[i-1]`. -/
def calculateReturns : List ℚ → List ℚ
  | [] => []
  | [_] => []
  | a :: b :: rest => (b - a) / a :: calculateReturns (b :: rest)

/-- Source `calculateVolatility`: population standard deviation of the returns.
The mean and variance are exact rationals; the square root is real. -/
noncomputable def calculateVolatility (returns : List ℚ) : ℝ :=
  let mean : ℚ := returns.sum / returns.length
  let variance : ℚ := (returns.map (fun r => (r - mean) ^ 2)).sum / returns.length
  Real.sqrt (variance : ℝ)

/-- Source `calculatePortfolioBeta`: `portfolio.beta || 1.0`. -/
def calculatePortfolioBeta (portfolio : RPortfolio) : ℚ :=
  jsOr portfolio.beta 1

/-- Source `calculateDiversification`: `1 - Σ w²` over `portfolio.assets`
(weights `[1]` when the field is absent). -/
def calculateDiversification (portfolio : RPortfolio) : ℚ :=
  let weights : List ℚ := (portfolio.assets.getD [⟨1⟩]).map PAsset.weight
  1 - weights.foldl (fun sum w => sum + w * w) 0

/-- Source `calculateAverageVolume`: `marketData.avgVolume || 1000000`. -/
def calculateAverageVolume (marketData : MarketData) : ℚ :=
  jsOr marketData.avgVolume 1000000

/-- Source `calculateSentimentVolatility`: `newsAnalysis.sentimentVolatility || 0.3`. -/
def calculateSentimentVolatility (news : NewsAnalysis) : ℚ :=
  jsOr news.sentimentVolatility (3/10)

/-- Source `calculateAverageCorrelation`: `marketData.avgCorrelation || 0.4`. -/
def calculateAverageCorrelation (marketData : MarketData) : ℚ :=
  jsOr marketData.avgCorrelation (4/10)

/-- Source `calculateContagionRisk`: `marketData.contagionIndicator || 0.3`. -/
def calculateContagionRisk (marketData : MarketData) : ℚ :=
  jsOr marketData.contagionIndicator (3/10)

/-- Source `calculateMarketRisk`: bucketed volatility (10/20/30/40 points),
bucketed beta distance from 1 (10/20/30 points), and the maximal stress
scenario loss `max(0.20, 0.10, 0.15) × 150 = 30` points, capped at 100.
(The unused local `var95` of the source is not represented.) -/
noncomputable def calculateMarketRisk (marketData : MarketData)
    (portfolio : RPortfolio) : ℚ :=
  let returns := calculateReturns marketData.prices
  let volatility := calculateVolatility returns
  let beta := calculatePortfolioBeta portfolio
  let maxStressLoss : ℚ := max |(-(20:ℚ)/100)| (max |(-(10:ℚ)/100)| |(-(15:ℚ)/100)|)
  let riskScore : ℚ :=
    (if volatility < (10:ℝ)/100 then 10
     else if volatility < (20:ℝ)/100 then 20
     else if volatility < (30:ℝ)/100 then 30
     else 40)
    + (if |beta - 1| < 3/10 then 10 else if |beta - 1| < 6/10 then 20 else 30)
    + maxStressLoss * 150
  min 100 riskScore

/-- Source `calculateCreditRisk`: base 30, flag bonuses, minus 10 × diversification,
clamped to `[0, 100]`. -/
def calculateCreditRisk (portfolio : RPortfolio) : ℚ :=
  let creditScore : ℚ := 30
    + (if portfolio.hasHighYield then 20 else 0)
    + (if portfolio.hasEmergingMarkets then 15 else 0)
    + (if portfolio.hasCrypto then 25 else 0)
    - calculateDiversification portfolio * 10
  max 0 (min 100 creditScore)

/-- Source `calculateLiquidityRisk`: base 20, bucketed volume ratio, bid-ask spread
scaled by 10000 capped at 40, capped at 100. -/
def calculateLiquidityRisk (marketData : MarketData) (portfolio : RPortfolio) : ℚ :=
  let avgVolume := calculateAverageVolume marketData
  let volumeRatio := portfolio.size / avgVolume
  let spread := jsOr marketData.bidAskSpread (1/1000)
  let liquidityScore : ℚ := 20
    + (if volumeRatio > 1/10 then 40
       else if volumeRatio > 5/100 then 30
       else if volumeRatio > 1/100 then 20
       else 10)
    + min 40 (spread * 10000)
  min 100 liquidityScore

/-- Source `calculateSentimentRisk`: 50 when no analysis; otherwise bearish
percentage plus sentiment volatility × 20 plus an extreme-sentiment +15,
capped at 100.  (`sentiment.bullish > 70` is false in JS when the field is
absent, matching `jsOr … 0 > 70` here since the default is `0`.) -/
def calculateSentimentRisk (news : Option NewsAnalysis) : ℚ :=
  match news with
  | none => 50
  | some analysis =>
    let sentiment := analysis.sentiment.getD ⟨none, none⟩
    let bearishScore := jsOr sentiment.bearish 0
    let volatilityOfSentiment := calculateSentimentVolatility analysis
    let sentimentRisk : ℚ := bearishScore + volatilityOfSentiment * 20
      + (if bearishScore > 70 ∨ jsOr sentiment.bullish 0 > 70 then 15 else 0)
    min 100 sentimentRisk

/-- Source `calculateSystemicRisk`: base 30, bucketed average correlation,
contagion × 30, capped at 100. -/
def calculateSystemicRisk (marketData : MarketData) : ℚ :=
  let avgCorrelation := calculateAverageCorrelation marketData
  let contagionRisk := calculateContagionRisk marketData
  let systemicScore : ℚ := 30
    + (if avgCorrelation > 7/10 then 40
       else if avgCorrelation > 5/10 then 25
       else if avgCorrelation > 3/10 then 15
       else 0)
    + contagionRisk * 30
  min 100 systemicScore

/-- The six risk levels. -/
inductive RiskKey
  | MINIMAL | LOW | MODERATE | ELEVATED | HIGH | EXTREME
deriving DecidableEq, Repr

/-- Source `this.riskLevels`: the six bands, in object-literal order; only the
`range` bounds matter for classification (colors and labels are UI data). -/
def riskLevels : List (RiskKey × ℚ × ℚ) :=
  [(.MINIMAL, 0, 20), (.LOW, 20, 40), (.MODERATE, 40, 60),
   (.ELEVATED, 60, 75), (.HIGH, 75, 90), (.EXTREME, 90, 100)]

/-- Source `getRiskLevel`: first band with `range[0] ≤ score < range[1]`, falling
back to `EXTREME` when no band matches (which is how a score of exactly 100
is classified). -/
def getRiskLevel (riskScore : ℚ) : RiskKey :=
  ((riskLevels.find? fun level =>
      decide (level.2.1 ≤ riskScore) && decide (riskScore < level.2.2)).map
    Prod.fst).getD .EXTREME

/-- The weighted composite of `calculateRiskScore` before rounding. -/
noncomputable def weightedRisk (marketData : MarketData) (portfolio : RPortfolio)
    (news : Option NewsAnalysis) : ℚ :=
  calculateMarketRisk marketData portfolio * (35/100)
  + calculateCreditRisk portfolio * (20/100)
  + calculateLiquidityRisk marketData portfolio * (15/100)
  + calculateSentimentRisk news * (15/100)
  + calculateSystemicRisk marketData * (15/100)

/-- The result record of `calculateRiskScore` (recommendations are covered
by `generateRiskRecommendations` separately). -/
structure RiskScoreResult where
  totalRisk : ℤ
  market : ℚ
  credit : ℚ
  liquidity : ℚ
  sentiment : ℚ
  systemic : ℚ
  level : RiskKey

/-- Source `calculateRiskScore`: the five components, the rounded weighted
composite, and the level of the unrounded composite. -/
noncomputable def calculateRiskScore (marketData : MarketData)
    (portfolio : RPortfolio) (news : Option NewsAnalysis) : RiskScoreResult :=
  { totalRisk := jsRound (weightedRisk marketData portfolio news)
    market := calculateMarketRisk marketData portfolio
    credit := calculateCreditRisk portfolio
    liquidity := calculateLiquidityRisk marketData portfolio
    sentiment := calculateSentimentRisk news
    systemic := calculateSystemicRisk marketData
    level := getRiskLevel (weightedRisk marketData portfolio news) }

/-- A concrete valid `marketData` input for the risk scorer. -/
def c4MarketData : MarketData := ⟨[100, 100], none, none, none, none⟩

/-- A concrete valid `portfolio` input for the risk scorer. -/
def c4Portfolio : RPortfolio := ⟨none, false, false, false, none, 1000⟩

end RiskScorer

namespace Backtest

/-! ## `BacktestEngine` (src/js/backtest.js)

The four trading strategies share a single FLAT/LONG trading loop: a BUY is
attempted only when the position is `0`, a SELL only when it is positive.
Each strategy's buy/sell signals depend only on the price data, never on
the trading state, so each strategy is embedded as a pure signal-stream
computation followed by the shared loop `runTrades`.  Trade and
portfolio-value records keep the fields the engine reads downstream
(`action`, `price`, `shares`, `value`); redundant per-strategy extras
(`cash`, `zScore`, `ma`, `macd`, `signal`) are elided. -/

/-- One daily bar of a price series. -/
structure Bar where
  date : String
  openP : ℚ
  high : ℚ
  low : ℚ
  close : ℚ
  volume : ℚ
deriving DecidableEq, Repr

/-- Trade direction. -/
inductive Action
  | BUY | SELL
deriving DecidableEq, Repr

/-- One emitted trade. -/
structure Trade where
  date : String
  action : Action
  price : ℚ
  shares : ℤ
deriving DecidableEq, Repr

/-- One equity-curve point. -/
structure PV where
  date : String
  value : ℚ
deriving DecidableEq, Repr

/-- The mutable loop state of a strategy: shares held, cash, and the
trade / portfolio-value lists built up by `push`. -/
structure TState where
  position : ℤ
  cash : ℚ
  trades : List Trade
  pvalues : List PV
deriving DecidableEq, Repr

/-- One iteration's inputs: the bar's date and price, the strategy's buy and
sell signals for that bar, and whether the iteration runs at all
(`active = false` models the `continue` of the MACD loop). -/
structure StepInput where
  date : String
  price : ℚ
  buySig : Bool
  sellSig : Bool
  active : Bool
deriving DecidableEq, Repr

/-- One loop iteration, shared by the momentum, mean-reversion and MACD
strategies: buy all-in (whole shares) on a buy signal from a flat position,
liquidate on a sell signal from a long position, then record the
portfolio value `position * price + cash`. -/
def tradeStep (inp : StepInput) (st : TState) : TState :=
  if !inp.active then st
  else
    let st1 :=
      if st.position = 0 ∧ inp.buySig then
        let shares := ⌊st.cash / inp.price⌋
        if 0 < shares then
          { st with
              position := shares
              cash := st.cash - shares * inp.price
              trades := st.trades ++ [⟨inp.date, .BUY, inp.price, shares⟩] }
        else st
      else if 0 < st.position ∧ inp.sellSig then
        { st with
            position := 0
            cash := st.cash + st.position * inp.price
            trades := st.trades ++ [⟨inp.date, .SELL, inp.price, st.position⟩] }
      else st
    { st1 with pvalues := st1.pvalues ++ [⟨inp.date, st1.position * inp.price + st1.cash⟩] }

/-- The strategy loop: fold `tradeStep` over the signal stream. -/
def runTrades (st : TState) : List StepInput → TState
  | [] => st
  | inp :: rest => runTrades (tradeStep inp st) rest

/-- The record returned by each strategy. -/
structure StratResult where
  trades : List Trade
  portfolioValues : List PV
  finalValue : ℚ
deriving Repr

/-- The `params` object: every field optional, with the defaults of the
source applied via `||`. -/
structure Params where
  initialCapital : Option ℚ
  maPeriod : Option ℕ
  lookback : Option ℕ
  zScoreThreshold : Option ℚ
  fastPeriod : Option ℕ
  slowPeriod : Option ℕ
  signalPeriod : Option ℕ

/-- Source `buyAndHoldStrategy`: one BUY on day 0 at `data[0].close` with
`floor(initialCapital / buyPrice)` shares; the portfolio is then marked to
market daily.  `none` models the TypeError the source throws on an empty
series (`data[0]` is `undefined`). -/
def buyAndHoldStrategy (data : List Bar) (params : Params) : Option StratResult :=
  match data with
  | [] => none
  | d0 :: _ =>
    let initialCapital := jsOr params.initialCapital 10000
    let buyPrice := d0.close
    let shares : ℤ := ⌊initialCapital / buyPrice⌋
    let buyValue := shares * buyPrice
    let trades : List Trade := [⟨d0.date, .BUY, buyPrice, shares⟩]
    let portfolioValues : List PV :=
      data.map fun day => ⟨day.date, shares * day.close + (initialCapital - buyValue)⟩
    some ⟨trades, portfolioValues,
      ((portfolioValues.getLast?).map PV.value).getD 0⟩

/-- The signal stream of `momentumStrategy`: for `i` from `maPeriod` to the
end, the moving average of the previous `maPeriod` closes (carried as a
sliding `window`), buy when `close > ma * 1.02`, sell when
`close < ma * 0.98`. -/
def momentumSteps (maPeriod : ℕ) : List ℚ → List Bar → List StepInput
  | _, [] => []
  | window, bar :: rest =>
    let ma := window.sum / (maPeriod : ℚ)
    ⟨bar.date, bar.close, decide (ma * (102/100) < bar.close),
      decide (bar.close < ma * (98/100)), true⟩
      :: momentumSteps maPeriod (window.drop 1 ++ [bar.close]) rest

/-- Source `momentumStrategy`: the trading loop over `momentumSteps`, then any
open position is liquidated at the final close (`finalValue` is the cash;
the final close is read only when a position is open, so the list is then
necessarily non-empty and the `getD 0` fallback is never taken). -/
def momentumStrategy (data : List Bar) (params : Params) : StratResult :=
  let initialCapital := jsOr params.initialCapital 10000
  let maPeriod := jsOrNat params.maPeriod 20
  let fin := runTrades ⟨0, initialCapital, [], []⟩
    (momentumSteps maPeriod ((data.take maPeriod).map Bar.close) (data.drop maPeriod))
  let lastClose := ((data.getLast?).map Bar.close).getD 0
  let cash := if 0 < fin.position then fin.cash + fin.position * lastClose else fin.cash
  ⟨fin.trades, fin.pvalues, cash⟩

/-- The signal stream of `meanReversionStrategy`: z-score of the close
against the previous `lookback` closes; buy when `z < -threshold`, sell
when `z > 0 || z > threshold`.  The standard deviation is a real square
root; when it is zero the JS z-score is `±Infinity`/`NaN` while the real
division yields `0` — in both semantics the guards below stay Boolean, and
the position-flat loop structure is unchanged. -/
noncomputable def meanReversionSteps (thr : ℚ) : List ℚ → List Bar → List StepInput
  | _, [] => []
  | window, bar :: rest =>
    let mean : ℚ := window.sum / (window.length : ℚ)
    let std : ℝ := Real.sqrt (((window.map fun n => (n - mean) ^ 2).sum / (window.length : ℚ) : ℚ))
    let zScore : ℝ := ((bar.close - mean : ℚ) : ℝ) / std
    ⟨bar.date, bar.close, decide (zScore < -(thr : ℝ)),
      decide ((0:ℝ) < zScore ∨ (thr : ℝ) < zScore), true⟩
      :: meanReversionSteps thr (window.drop 1 ++ [bar.close]) rest

/-- Source `meanReversionStrategy`: the trading loop over `meanReversionSteps`;
`finalValue = position * data[data.length-1].close + cash` is evaluated
unconditionally, so an empty series throws (`none`). -/
noncomputable def meanReversionStrategy (data : List Bar) (params : Params) :
    Option StratResult :=
  match data with
  | [] => none
  | _ :: _ =>
    let initialCapital := jsOr params.initialCapital 10000
    let lookback := jsOrNat params.lookback 20
    let thr := jsOr params.zScoreThreshold 2
    let fin := runTrades ⟨0, initialCapital, [], []⟩
      (meanReversionSteps thr ((data.take lookback).map Bar.close) (data.drop lookback))
    let lastClose := ((data.getLast?).map Bar.close).getD 0
    some ⟨fin.trades, fin.pvalues, fin.position * lastClose + fin.cash⟩

/-- Source `calculateEMA`: exponential moving average seeded with the first data
point, smoothing factor `k = 2/(period+1)`. -/
def emaFrom (k : ℚ) (prev : ℚ) : List ℚ → List ℚ
  | [] => []
  | x :: rest =>
    let e := x * k + prev * (1 - k)
    e :: emaFrom k e rest

/-- Source `calculateEMA` on a non-empty series (the engine only calls it on the
full price list of a non-empty data set). -/
def calculateEMA (data : List ℚ) (period : ℕ) : List ℚ :=
  let k : ℚ := 2 / ((period : ℚ) + 1)
  match data with
  | [] => []
  | x :: rest => x :: emaFrom k x rest

/-- One row of the MACD table: date, close, MACD line and signal line. -/
structure MacdPt where
  date : String
  price : ℚ
  macd : ℚ
  signal : ℚ
deriving DecidableEq, Repr

/-- Source `calculateMACD`: MACD line = fast EMA − slow EMA of the closes, signal
line = EMA of the MACD line. -/
def calculateMACD (data : List Bar) (fastPeriod slowPeriod signalPeriod : ℕ) :
    List MacdPt :=
  let prices := data.map Bar.close
  let emaFast := calculateEMA prices fastPeriod
  let emaSlow := calculateEMA prices slowPeriod
  let macdLine := (data.zip (emaFast.zip emaSlow)).map fun p =>
    (p.1.date, p.1.close, p.2.1 - p.2.2)
  let signalLine := calculateEMA (macdLine.map fun m => m.2.2) signalPeriod
  (macdLine.zip signalLine).map fun p => ⟨p.1.1, p.1.2.1, p.1.2.2, p.2⟩

/-- The signal stream of `macdStrategy`: skip a row when its signal value
is falsy (`!macd.signal`, i.e. `signal = 0`); otherwise buy on an upward
MACD/signal crossing, sell on a downward crossing (`i > 0` means a
previous row exists). -/
def macdSteps : Option MacdPt → List MacdPt → List StepInput
  | _, [] => []
  | prev, p :: rest =>
    let buySig := decide (p.signal < p.macd) &&
      (match prev with
       | some q => decide (q.macd ≤ q.signal)
       | none => false)
    let sellSig := decide (p.macd < p.signal) &&
      (match prev with
       | some q => decide (q.signal ≤ q.macd)
       | none => false)
    ⟨p.date, p.price, buySig, sellSig, !decide (p.signal = 0)⟩ :: macdSteps (some p) rest

/-- Source `macdStrategy`: the trading loop over `macdSteps`;
`finalValue = position * macdData[macdData.length-1].price + cash` reads
the last MACD row, which exists whenever the data is non-empty (`none`
models the TypeError on an empty series). -/
def macdStrategy (data : List Bar) (params : Params) : Option StratResult :=
  match data with
  | [] => none
  | _ :: _ =>
    let initialCapital := jsOr params.initialCapital 10000
    let fastPeriod := jsOrNat params.fastPeriod 12
    let slowPeriod := jsOrNat params.slowPeriod 26
    let signalPeriod := jsOrNat params.signalPeriod 9
    let macdData := calculateMACD data fastPeriod slowPeriod signalPeriod
    let fin := runTrades ⟨0, initialCapital, [], []⟩ (macdSteps none macdData)
    let lastPrice := ((macdData.getLast?).map MacdPt.price).getD 0
    some ⟨fin.trades, fin.pvalues, fin.position * lastPrice + fin.cash⟩

/-- The aggregate metrics of `calculatePerformanceMetrics`.  Ratios that
need real square roots or powers are `ℝ`; the percentage/`toFixed` string
formatting of the source is elided (the numeric values are kept). -/
structure Metrics where
  totalReturn : ℚ
  annualizedReturn : ℝ
  sharpeRatio : ℝ
  maxDrawdown : ℚ
  volatility : ℝ
  totalTrades : ℕ
  winRate : ℚ
  finalValue : ℚ

/-- Max drawdown over the equity curve (peak so far vs current value). -/
def maxDrawdownOf (first : ℚ) (values : List ℚ) : ℚ :=
  (values.foldl
    (fun acc v =>
      let peak := max acc.1 v
      (peak, max acc.2 ((peak - v) / peak)))
    (first, 0)).2

/-- Win rate bookkeeping, faithful to the source: a BUY records its price,
a SELL with a recorded buy price closes a pair (a win when it sold
higher); a SELL with no recorded buy price is ignored. -/
def winStatsGo (buyPrice : Option ℚ) : List Trade → ℕ × ℕ
  | [] => (0, 0)
  | t :: rest =>
    match t.action, buyPrice with
    | .BUY, _ => winStatsGo (some t.price) rest
    | .SELL, some bp =>
      let s := winStatsGo none rest
      (s.1 + (if bp < t.price then 1 else 0), s.2 + 1)
    | .SELL, none => winStatsGo none rest

/-- Source `calculatePerformanceMetrics`: daily returns of the equity curve,
total/annualized return, Sharpe ratio, max drawdown, win rate over matched
BUY/SELL pairs.  The source reads `values[0].value` unconditionally, so an
empty `portfolioValues` throws a TypeError: that failure is `none`. -/
noncomputable def calculatePerformanceMetrics (results : StratResult)
    (initialCapital : ℚ) : Option Metrics :=
  match results.portfolioValues with
  | [] => none
  | v0 :: vrest =>
    let values := v0 :: vrest
    let returns : List ℚ :=
      (values.zip vrest).map fun p => (p.2.value - p.1.value) / p.1.value
    let totalReturn := (results.finalValue - initialCapital) / initialCapital
    let annualizedReturn : ℝ :=
      (1 + (totalReturn : ℝ)) ^ ((252 : ℝ) / (values.length : ℝ)) - 1
    let avgReturn : ℚ := returns.sum / returns.length
    let std : ℝ :=
      Real.sqrt (((returns.map fun n => (n - avgReturn) ^ 2).sum / returns.length : ℚ))
    let sharpeRatio : ℝ := (annualizedReturn - 2/100) / (std * Real.sqrt 252)
    let maxDrawdown := maxDrawdownOf v0.value (values.map PV.value)
    let ws := winStatsGo none results.trades
    let winRate : ℚ := if 0 < ws.2 then (ws.1 : ℚ) / ws.2 else 0
    some ⟨totalReturn, annualizedReturn, sharpeRatio, maxDrawdown,
      std * Real.sqrt 252, results.trades.length, winRate, results.finalValue⟩

/-- The record returned by `runBacktest`. -/
structure BacktestResult where
  strategy : String
  result : StratResult
  metrics : Metrics

/-- Source `runBacktest` on already-loaded historical data: dispatch on the
strategy name (an unknown name throws), run the strategy, then compute the
metrics; any thrown TypeError along the way is `none`.  The synthetic-data
fallback for an empty `historicalData` (`generateHistoricalData`, driven
by `Math.random`) is outside this embedding — `data` is the loaded series. -/
noncomputable def runBacktest (strategyName : String) (data : List Bar)
    (params : Params) : Option BacktestResult :=
  let initialCapital := jsOr params.initialCapital 10000
  let run : Option StratResult :=
    if strategyName = "buyAndHold" then buyAndHoldStrategy data params
    else if strategyName = "momentum" then some (momentumStrategy data params)
    else if strategyName = "meanReversion" then meanReversionStrategy data params
    else if strategyName = "macdCrossover" then macdStrategy data params
    else none
  run.bind fun results =>
    (calculatePerformanceMetrics results initialCapital).map fun metrics =>
      ⟨strategyName, results, metrics⟩

/-- The opposite trade direction. -/
def Action.other : Action → Action
  | .BUY => .SELL
  | .SELL => .BUY

/-- Does a trade-action list alternate starting from `e`? -/
def altFrom (e : Action) : List Action → Bool
  | [] => true
  | a :: rest => decide (a = e) && altFrom e.other rest

/-- The observable part of the position-flat invariant: the trade list
alternates BUY, SELL, BUY, … starting with BUY. -/
def tradesAlternate (trades : List Trade) : Bool :=
  altFrom .BUY (trades.map Trade.action)

/-- The loop invariant: the trades so far alternate starting with BUY, and
the position is flat exactly when an even number of trades was emitted. -/
def tradesOk (st : TState) : Prop :=
  altFrom .BUY (st.trades.map Trade.action) = true ∧
  (st.trades.length % 2 = 0 ↔ st.position = 0)

/-- A concrete bar whose opening price differs from its closing price. -/
def c2Bar : Bar := ⟨"day0", 50, 110, 40, 100, 0⟩

/-- An empty `params` object (all defaults apply). -/
def noParams : Params := ⟨none, none, none, none, none, none, none⟩

end Backtest

namespace PortfolioAnalysis

/-! ## `PortfolioAnalyzer` (src/js/portfolio-analysis.js)

`analyzePortfolio` and its helpers.  Engine constants: risk-free rate 2%,
confidence level 95%, 252 trading days.  The `Math.random` draws of
`simulateHistoricalValues` are passed in explicitly as `rand`.  Advisory
records (`pros`, `cons`, `recommendations`) are represented by their
`category` tags; their free-text `description`/`rationale` payloads and the
`timestamp` field are elided. -/

/-- One portfolio asset, with the fields the analyzer reads. -/
structure Asset where
  totalValue : Option ℚ
  buyPrice : Option ℚ
  currentPrice : Option ℚ
  type' : Option String
  sector : Option String
  region : Option String
  style : Option String
deriving DecidableEq, Repr

/-- Source `calculateTotalValue`: `Σ (asset.totalValue || 0)`. -/
def calculateTotalValue (portfolio : List Asset) : ℚ :=
  portfolio.foldl (fun sum asset => sum + jsOr asset.totalValue 0) 0

/-- Source `calculateReturns`: per-asset `(current - buy) / buy` with each price
falling back to the other when absent.  (When both are absent the JS value
is `NaN`; here the junk value is `0 / 0 = 0` — no theorem below depends on
that corner.) -/
def calculateReturns (portfolio : List Asset) : List ℚ :=
  portfolio.map fun asset =>
    let buyPrice := jsOr asset.buyPrice (jsOr asset.currentPrice 0)
    let currentPrice := jsOr asset.currentPrice buyPrice
    (currentPrice - buyPrice) / buyPrice

/-- Source `calculateWeights`: value weights, all zero when the total is zero. -/
def calculateWeights (portfolio : List Asset) (totalValue : ℚ) : List ℚ :=
  if totalValue = 0 then portfolio.map fun _ => 0
  else portfolio.map fun asset => jsOr asset.totalValue 0 / totalValue

/-- Source `calculateVolatility`: annualized sample standard deviation of the
returns; `0` for fewer than two observations. -/
noncomputable def calculateVolatility (returns : List ℚ) : ℝ :=
  if returns.length < 2 then 0
  else
    let mean : ℚ := returns.sum / returns.length
    let variance : ℚ :=
      (returns.map fun r => (r - mean) ^ 2).sum / ((returns.length : ℚ) - 1)
    Real.sqrt (variance : ℝ) * Real.sqrt 252

/-- Source `simulateHistoricalValues`: one year (252 points) of a simulated value
path starting at the portfolio total; each `Math.random()` draw is taken
from `rand`. -/
def simPath (v : ℚ) : List ℚ → List ℚ
  | [] => []
  | r :: rest =>
    let v' := v * (1 + (r - 1/2) * (2/100))
    v' :: simPath v' rest

/-- Source `simulateHistoricalValues` (see `simPath`). -/
def simulateHistoricalValues (portfolio : List Asset) (rand : List ℚ) : List ℚ :=
  let totalValue := calculateTotalValue portfolio
  totalValue :: simPath totalValue (rand.take 251)

/-- Source `calculateMaxDrawdown`: peak-to-trough decline over the simulated path;
`0` for an empty portfolio. -/
def calculateMaxDrawdown (portfolio : List Asset) (rand : List ℚ) : ℚ :=
  if portfolio = [] then 0
  else
    match simulateHistoricalValues portfolio rand with
    | [] => 0
    | v0 :: vrest =>
      ((v0 :: vrest).foldl
        (fun acc v =>
          let peak := max acc.1 v
          (peak, max acc.2 ((peak - v) / peak)))
        (v0, 0)).2

/-- Source `getZScore`: table lookup with default 1.645. -/
def getZScore (confidenceLevel : ℚ) : ℚ :=
  if confidenceLevel = 90/100 then 1282/1000
  else if confidenceLevel = 95/100 then 1645/1000
  else if confidenceLevel = 99/100 then 2326/1000
  else 1645/1000

/-- Source `calculateVaR`: parametric daily VaR scaled to 10 days for fewer than
10 observations, historical percentile otherwise. -/
noncomputable def calculateVaR (totalValue : ℚ) (returns : List ℚ)
    (confidenceLevel : ℚ) : ℝ :=
  if returns.length < 10 then
    let meanReturn : ℚ :=
      if 0 < returns.length then returns.sum / returns.length else 0
    let volatility := calculateVolatility returns
    let zScore := getZScore confidenceLevel
    let dailyVaR : ℝ :=
      (totalValue : ℝ) * ((meanReturn : ℝ) - (zScore : ℝ) * volatility / Real.sqrt 252)
    |dailyVaR * Real.sqrt 10|
  else
    let sortedReturns := returns.mergeSort (· ≤ ·)
    let index := Nat.floor ((1 - confidenceLevel) * (sortedReturns.length : ℚ))
    let percentileLoss := sortedReturns.getD index 0
    |(totalValue : ℝ) * (percentileLoss : ℝ) * Real.sqrt 10|

/-- Source `calculateSharpeRatio`: `(annualized mean − 2%) / volatility`,
`0` for an empty returns list or a zero volatility; the volatility argument
is `none` when the caller omits it (JS default `null`). -/
noncomputable def calculateSharpeRatio (returns : List ℚ)
    (volatility : Option ℝ) : ℝ :=
  if returns = [] then 0
  else
    let meanReturn : ℚ := returns.sum / returns.length
    let annualizedReturn : ℚ := meanReturn * 252
    let vol : ℝ := volatility.getD (calculateVolatility returns)
    if vol = 0 then 0
    else ((annualizedReturn : ℝ) - 2/100) / vol

/-- Association-list update for the concentration maps:
`m[key] = (m[key] || 0) + w`. -/
def bumpAssoc : List (String × ℚ) → String → ℚ → List (String × ℚ)
  | [], key, w => [(key, w)]
  | (k, v) :: rest, key, w =>
    if k = key then (k, v + w) :: rest else (k, v) :: bumpAssoc rest key w

/-- Source `calculateHerfindahlIndex`: `Σ w²`. -/
def calculateHerfindahlIndex (weights : List ℚ) : ℚ :=
  weights.foldl (fun sum w => sum + w * w) 0

/-- The record returned by `analyzeDiversification`. -/
structure Diversification where
  assetTypes : List (String × ℚ)
  sectors : List (String × ℚ)
  regions : List (String × ℚ)
  herfindahlIndex : ℚ
  effectiveN : ℚ
  diversificationRatio : ℚ
  isWellDiversified : Bool
deriving DecidableEq, Repr

/-- Source `analyzeDiversification`: concentration maps keyed by asset type /
sector / region, Herfindahl index, effective number of holdings `1/HHI`,
and the well-diversified flag `effectiveN > 10 && HHI < 0.15`. -/
def analyzeDiversification (portfolio : List Asset) (weights : List ℚ) :
    Diversification :=
  let maps := (portfolio.zip weights).foldl
    (fun (acc : List (String × ℚ) × List (String × ℚ) × List (String × ℚ)) p =>
      (bumpAssoc acc.1 (p.1.type'.getD "unknown") p.2,
       bumpAssoc acc.2.1 (p.1.sector.getD "unknown") p.2,
       bumpAssoc acc.2.2 (p.1.region.getD "domestic") p.2))
    ([], [], [])
  let herfindahlIndex := calculateHerfindahlIndex weights
  let effectiveN := 1 / herfindahlIndex
  { assetTypes := maps.1
    sectors := maps.2.1
    regions := maps.2.2
    herfindahlIndex := herfindahlIndex
    effectiveN := effectiveN
    diversificationRatio := effectiveN / portfolio.length
    isWellDiversified := decide (10 < effectiveN) && decide (herfindahlIndex < 15/100) }

/-- Source `calculateExpectedReturn`: annualized mean return, `0` when empty. -/
def calculateExpectedReturn (returns : List ℚ) : ℚ :=
  if returns = [] then 0 else returns.sum / returns.length * 252

/-- Source `calculateBeta`: `1` without market data or returns, otherwise the
volatility ratio to a 15% market volatility clamped to `[0.5, 2]`.  Only
the presence of `marketData` is consulted, so it is a `Bool`. -/
noncomputable def calculateBeta (returns : List ℚ) (marketData : Bool) : ℝ :=
  if ¬marketData ∨ returns = [] then 1
  else min 2 (max (1/2) (calculateVolatility returns / (15/100)))

/-- Source `calculateTreynorRatio`: `(annualized mean − 2%) / beta`, `0` when the
returns are empty or beta is zero. -/
noncomputable def calculateTreynorRatio (returns : List ℚ) (beta : ℝ) : ℝ :=
  if returns = [] ∨ beta = 0 then 0
  else (((returns.sum / returns.length * 252 : ℚ) : ℝ) - 2/100) / beta

/-- Source `getAssetTypeWeight`: total weight of one asset type. -/
def getAssetTypeWeight (portfolio : List Asset) (weights : List ℚ)
    (type' : String) : ℚ :=
  ((portfolio.zip weights).filter fun p => p.1.type' = some type').foldl
    (fun sum p => sum + p.2) 0

/-- Source `getRegionalWeight`: total weight of one region (default `domestic`). -/
def getRegionalWeight (portfolio : List Asset) (weights : List ℚ)
    (region : String) : ℚ :=
  ((portfolio.zip weights).filter fun p => p.1.region.getD "domestic" = region).foldl
    (fun sum p => sum + p.2) 0

/-- Source `getStyleWeight`: total weight of one style (default `blend`). -/
def getStyleWeight (portfolio : List Asset) (weights : List ℚ)
    (style : String) : ℚ :=
  ((portfolio.zip weights).filter fun p => p.1.style.getD "blend" = style).foldl
    (fun sum p => sum + p.2) 0

/-- Source `hasAssetType`: does any asset have the given type? -/
def hasAssetType (portfolio : List Asset) (type' : String) : Bool :=
  portfolio.any fun asset => asset.type' = some type'

/-- The metric bundle passed into `evaluatePortfolio`. -/
structure EvalMetrics where
  volatility : ℝ
  maxDrawdown : ℚ
  valueAtRisk : ℝ
  sharpeRatio : ℝ

/-- Source `evaluatePortfolio`: the strengths/weaknesses rule table; each advisory
is represented by its `category` tag, in emission order. -/
noncomputable def evaluatePortfolio (portfolio : List Asset) (weights : List ℚ)
    (diversification : Diversification) (metrics : EvalMetrics) :
    List String × List String :=
  let stockWeight := getAssetTypeWeight portfolio weights "stock"
  let bondWeight := getAssetTypeWeight portfolio weights "bond"
  let domesticWeight := getRegionalWeight portfolio weights "domestic"
  let hasRealAssets := hasAssetType portfolio "commodity" || hasAssetType portfolio "reit"
  let pros : List String :=
    (if diversification.isWellDiversified then ["Diversification"] else [])
    ++ (if (1:ℝ) < metrics.sharpeRatio then ["Risk-Adjusted Returns"] else [])
    ++ (if metrics.volatility < 15/100 then ["Low Volatility"] else [])
    ++ (if ¬(4/5 < stockWeight) ∧ ¬(3/5 < bondWeight) ∧ 3/10 < stockWeight ∧ 1/5 < bondWeight
        then ["Balanced Allocation"] else [])
  let cons : List String :=
    (if diversification.isWellDiversified then [] else ["Concentration Risk"])
    ++ (if ¬((1:ℝ) < metrics.sharpeRatio) ∧ metrics.sharpeRatio < 1/2
        then ["Poor Risk-Adjusted Returns"] else [])
    ++ (if ¬(metrics.volatility < 15/100) ∧ (3/10 : ℝ) < metrics.volatility
        then ["High Volatility"] else [])
    ++ (if 1/5 < metrics.maxDrawdown then ["Large Drawdown Risk"] else [])
    ++ (if 4/5 < stockWeight then ["Equity Concentration"]
        else if 3/5 < bondWeight then ["Conservative Bias"] else [])
    ++ (if 9/10 < domesticWeight then ["Home Bias"] else [])
    ++ (if ¬hasRealAssets then ["Missing Real Assets"] else [])
  (pros, cons)

/-- Source `generateRecommendations`: the fund-category rule table; each
recommendation is represented by its `category` tag, in emission order. -/
def generateRecommendations (portfolio : List Asset)
    (diversification : Diversification) : List String :=
  let weights := calculateWeights portfolio (calculateTotalValue portfolio)
  let internationalWeight := 1 - getRegionalWeight portfolio weights "domestic"
  let hasInflationProtection :=
    hasAssetType portfolio "tips" || hasAssetType portfolio "commodity"
  let growthWeight := getStyleWeight portfolio weights "growth"
  let valueWeight := getStyleWeight portfolio weights "value"
  let defensiveWeight :=
    getAssetTypeWeight portfolio weights "bond" + getAssetTypeWeight portfolio weights "cash"
  (if 15/100 < diversification.herfindahlIndex then ["Broad Market Index Funds"] else [])
  ++ (if internationalWeight < 1/5 then ["Global Equity Funds"] else [])
  ++ (if ¬hasInflationProtection
      then ["Inflation-Protected Bond Funds (TIPS)", "Commodity Funds"] else [])
  ++ (if ¬hasAssetType portfolio "reit" then ["Real Estate Funds (REITs)"] else [])
  ++ (if 7/10 < growthWeight then ["Value Stock Funds"]
      else if 7/10 < valueWeight then ["Growth Stock Funds"] else [])
  ++ (if defensiveWeight < 1/5 then ["Investment Grade Bond Funds"] else [])

/-- The metrics block of the analysis result. -/
structure AMetrics where
  totalValue : ℚ
  volatility : ℝ
  maxDrawdown : ℚ
  valueAtRisk : ℝ
  sharpeRatio : ℝ
  expectedReturn : ℚ
  beta : ℝ
  treynorRatio : ℝ

/-- The full analysis result (timestamp elided). -/
structure AnalysisResult where
  metrics : AMetrics
  diversification : Diversification
  pros : List String
  cons : List String
  recommendations : List String

/-- Source `getEmptyAnalysis`: the documented zeroed result record. -/
def getEmptyAnalysis : AnalysisResult :=
  { metrics :=
    { totalValue := 0
      volatility := 0
      maxDrawdown := 0
      valueAtRisk := 0
      sharpeRatio := 0
      expectedReturn := 0
      beta := 0
      treynorRatio := 0 }
    diversification :=
    { assetTypes := []
      sectors := []
      regions := []
      herfindahlIndex := 0
      effectiveN := 0
      diversificationRatio := 0
      isWellDiversified := false }
    pros := []
    cons := []
    recommendations := [] }

/-- Source `analyzePortfolio`: the zeroed record for a `null`/empty portfolio,
otherwise the composed metrics / diversification / advisory analysis.
`portfolio = none` models a `null`/`undefined` argument, `marketData` its
truthiness, and `rand` the `Math.random` draws of the drawdown simulation. -/
noncomputable def analyzePortfolio (portfolio : Option (List Asset))
    (marketData : Bool) (rand : List ℚ) : AnalysisResult :=
  match portfolio with
  | none => getEmptyAnalysis
  | some assets =>
    if assets = [] then getEmptyAnalysis
    else
      let totalValue := calculateTotalValue assets
      let returns := calculateReturns assets
      let weights := calculateWeights assets totalValue
      let volatility := calculateVolatility returns
      let maxDrawdown := calculateMaxDrawdown assets rand
      let valueAtRisk := calculateVaR totalValue returns (95/100)
      let sharpeRatio := calculateSharpeRatio returns (some volatility)
      let diversification := analyzeDiversification assets weights
      let prosAndCons := evaluatePortfolio assets weights diversification
        ⟨volatility, maxDrawdown, valueAtRisk, sharpeRatio⟩
      let recommendations := generateRecommendations assets diversification
      let beta := calculateBeta returns marketData
      { metrics :=
        { totalValue := totalValue
          volatility := volatility
          maxDrawdown := maxDrawdown
          valueAtRisk := valueAtRisk
          sharpeRatio := sharpeRatio
          expectedReturn := calculateExpectedReturn returns
          beta := beta
          treynorRatio := calculateTreynorRatio returns beta }
        diversification := diversification
        pros := prosAndCons.1
        cons := prosAndCons.2
        recommendations := recommendations }

/-- A concrete holding worth 50 (type `stock`), used for the two-equal-
holdings scenario. -/
def c9Asset : Asset := ⟨some 50, some 10, some 10, some "stock", none, none, none⟩

/-- The two-equal-holdings portfolio (50/50). -/
def c9Portfolio : List Asset := [c9Asset, c9Asset]

end PortfolioAnalysis

namespace MonteCarlo

/-! ## Monte Carlo simulation

`performMonteCarloSimulation` (src/js/quant-ui.js) validates its inputs
before calling `runMonteCarloSimulation` (src/unnamed/part_004).  The
validation stage is deterministic and is embedded in full; the simulation
itself is driven by `Math.random`, so the per-path final values are taken
as an input of the statistics stage, which is what the claims are about.

A JS number that may be `NaN` is modelled by `JsNum` (`ℚ` has no `NaN`);
`nan` is falsy, `isNaN nan = true`, and every ordered comparison with
`nan` is false. -/

/-- A JS number: either `NaN` or a finite value. -/
inductive JsNum
  | nan
  | num (q : ℚ)
deriving DecidableEq, Repr

/-- JS truthiness test (for numbers: `0` and `NaN` are falsy). -/
def JsNum.falsy : JsNum → Bool
  | .nan => true
  | .num q => decide (q = 0)

/-- JS `isNaN`. -/
def JsNum.isNaNb : JsNum → Bool
  | .nan => true
  | .num _ => false

/-- JS `x <= 0` (false for `NaN`). -/
def JsNum.le0 : JsNum → Bool
  | .nan => false
  | .num q => decide (q ≤ 0)

/-- The finite value of a non-`NaN` number (junk `0` for `NaN`; every use
below is guarded so that the `NaN` case is unreachable). -/
def JsNum.val : JsNum → ℚ
  | .nan => 0
  | .num q => q

/-- The `portfolio` argument of `performMonteCarloSimulation`. -/
structure MCPortfolio where
  currentValue : JsNum
  expectedReturn : JsNum
  volatility : JsNum
deriving DecidableEq, Repr

/-- The error record returned on an invalid portfolio or missing engine. -/
structure MCErrorResult where
  expectedReturn : ℚ
  VaR95 : ℚ
  sharpeRatio : ℚ
  maxDrawdown : ℚ
  error : String
deriving DecidableEq, Repr

/-- Source `{expectedReturn: 0, VaR95: 0, sharpeRatio: 0, maxDrawdown: 0,
error: 'Invalid portfolio data'}`. -/
def mcInvalidPortfolioResult : MCErrorResult :=
  ⟨0, 0, 0, 0, "Invalid portfolio data"⟩

/-- Source `{…, error: 'Analysis engine not ready'}`. -/
def mcEngineNotReadyResult : MCErrorResult :=
  ⟨0, 0, 0, 0, "Analysis engine not ready"⟩

/-- The sanitized inputs handed to `runMonteCarloSimulation`. -/
structure MCSanitized where
  currentValue : ℚ
  expectedReturn : ℚ
  volatility : ℚ
  horizonDays : ℚ
  numSimulations : ℚ
deriving DecidableEq, Repr

/-- The validation stage of `performMonteCarloSimulation`:
* missing/`NaN`/zero/negative `currentValue` is a hard error (the function
  returns the invalid-portfolio record without running the simulation);
* falsy or `NaN` `expectedReturn` becomes `0.08`;
* falsy, `NaN` or non-positive `volatility` becomes `0.15`;
* falsy or non-positive `horizonDays` becomes `252`;
* falsy or non-positive `numSimulations` becomes `1000`;
* an uninitialized engine is a hard error (checked after the defaults). -/
def sanitizeMonteCarloInputs (portfolio : MCPortfolio)
    (horizonDays numSimulations : JsNum) (engineReady : Bool) :
    Except MCErrorResult MCSanitized :=
  if portfolio.currentValue.falsy || portfolio.currentValue.le0 then
    .error mcInvalidPortfolioResult
  else
    let expectedReturn :=
      if portfolio.expectedReturn.falsy || portfolio.expectedReturn.isNaNb
      then JsNum.num (8/100) else portfolio.expectedReturn
    let volatility :=
      if portfolio.volatility.falsy || portfolio.volatility.isNaNb ||
         portfolio.volatility.le0
      then JsNum.num (15/100) else portfolio.volatility
    let horizon := if horizonDays.falsy || horizonDays.le0
      then JsNum.num 252 else horizonDays
    let sims := if numSimulations.falsy || numSimulations.le0
      then JsNum.num 1000 else numSimulations
    if !engineReady then .error mcEngineNotReadyResult
    else .ok ⟨portfolio.currentValue.val, expectedReturn.val, volatility.val,
      horizon.val, sims.val⟩

/-! ### `runMonteCarloSimulation` statistics (src/unnamed/part_004)

After the random walk produces one final value per simulated path, the
engine sorts them and computes VaR95, CVaR95, and the probability of loss.
`finals` is that list of per-path final values, so
`finals.length = simulations`.  `Math.floor(simulations * 0.05)` is the
Nat division `simulations / 20` (the exact value of `0.05`). -/

/-- Source `sortedFinalValues`: the final values sorted ascending. -/
def mcSortedFinals (finals : List ℚ) : List ℚ :=
  finals.mergeSort (· ≤ ·)

/-- Source `VaR95 = sortedFinalValues[Math.floor(simulations * 0.05)]`. -/
def mcVaR95 (finals : List ℚ) : ℚ :=
  (mcSortedFinals finals).getD (finals.length / 20) 0

/-- Source `CVaR95`: mean of the worst 5% of final values.  When
`Math.floor(simulations * 0.05) = 0` the JS value is `0 / 0 = NaN`,
modelled as `none`. -/
def mcCVaR95 (finals : List ℚ) : Option ℚ :=
  let k := finals.length / 20
  if k = 0 then none
  else some (((mcSortedFinals finals).take k).sum / (k : ℚ))

/-- Source `probabilityOfLoss`: fraction of paths ending below the initial value. -/
def mcProbabilityOfLoss (currentValue : ℚ) (finals : List ℚ) : ℚ :=
  ((finals.filter fun v => v < currentValue).length : ℚ) / (finals.length : ℚ)

end MonteCarlo

namespace RiskScorer

/-- Helper: the market-risk score is always within `[0, 100]` (every
volatility and beta bucket contributes at least 10, the stress component
is `0.20 × 150 = 30`, and the total is capped at 100). -/
theorem calculateMarketRisk_bounds (md : MarketData) (pf : RPortfolio) :
    0 ≤ calculateMarketRisk md pf ∧ calculateMarketRisk md pf ≤ 100 := by
  unfold calculateMarketRisk
  refine ⟨le_min (by norm_num) ?_, min_le_left _ _⟩
  split_ifs <;> norm_num [abs_of_nonneg]

/-- Helper: the credit-risk score is clamped to `[0, 100]`. -/
theorem calculateCreditRisk_bounds (pf : RPortfolio) :
    0 ≤ calculateCreditRisk pf ∧ calculateCreditRisk pf ≤ 100 := by
  unfold calculateCreditRisk
  exact ⟨le_max_left _ _, max_le (by norm_num) (min_le_left _ _)⟩

/-- Helper: with a nonnegative bid-ask spread the liquidity-risk score is
within `[0, 100]`. -/
theorem calculateLiquidityRisk_bounds (md : MarketData) (pf : RPortfolio)
    (hspread : 0 ≤ jsOr md.bidAskSpread (1/1000)) :
    0 ≤ calculateLiquidityRisk md pf ∧ calculateLiquidityRisk md pf ≤ 100 := by
  unfold calculateLiquidityRisk
  refine ⟨le_min (by norm_num) ?_, min_le_left _ _⟩
  have hmin : (0:ℚ) ≤ min 40 (jsOr md.bidAskSpread (1/1000) * 10000) :=
    le_min (by norm_num) (mul_nonneg hspread (by norm_num))
  split_ifs <;> linarith

/-- Helper: with nonnegative sentiment inputs the sentiment-risk score is
within `[0, 100]`. -/
theorem calculateSentimentRisk_bounds (news : Option NewsAnalysis)
    (hnews : ∀ a, news = some a →
      0 ≤ jsOr (a.sentiment.getD ⟨none, none⟩).bearish 0 ∧
      0 ≤ calculateSentimentVolatility a) :
    0 ≤ calculateSentimentRisk news ∧ calculateSentimentRisk news ≤ 100 := by
  cases news with
  | none => refine ⟨?_, ?_⟩ <;> norm_num [calculateSentimentRisk]
  | some a =>
    obtain ⟨hb, hv⟩ := hnews a rfl
    unfold calculateSentimentRisk
    refine ⟨le_min (by norm_num) ?_, min_le_left _ _⟩
    have : (0:ℚ) ≤ calculateSentimentVolatility a * 20 := by linarith
    split_ifs <;> linarith

/-- Helper: with a nonnegative contagion indicator the systemic-risk score
is within `[0, 100]`. -/
theorem calculateSystemicRisk_bounds (md : MarketData)
    (hcont : 0 ≤ calculateContagionRisk md) :
    0 ≤ calculateSystemicRisk md ∧ calculateSystemicRisk md ≤ 100 := by
  unfold calculateSystemicRisk
  refine ⟨le_min (by norm_num) ?_, min_le_left _ _⟩
  have : (0:ℚ) ≤ calculateContagionRisk md * 30 := by linarith
  split_ifs <;> linarith

/-- Helper: `jsRound` maps `[0, 100]` into `{0, …, 100}`. -/
theorem jsRound_bounds {q : ℚ} (h0 : 0 ≤ q) (h1 : q ≤ 100) :
    0 ≤ jsRound q ∧ jsRound q ≤ 100 := by
  unfold jsRound
  constructor
  · exact Int.le_floor.mpr (by push_cast; linarith)
  · have : (⌊q + 1/2⌋ : ℚ) ≤ q + 1/2 := Int.floor_le _
    have h2 : (⌊q + 1/2⌋ : ℚ) ≤ 100 + 1/2 := by linarith
    exact_mod_cast Int.floor_le_floor (α := ℚ) (by linarith : q + 1/2 ≤ (100:ℚ) + 1/2)
      |>.trans_eq (by norm_num)

end RiskScorer

namespace RiskScorer

/-- C3 — The risk-level classification maps every score in `[0, 100]`
to exactly one of the six levels via the half-open bands `[0,20)` MINIMAL,
`[20,40)` LOW, `[40,60)` MODERATE, `[60,75)` ELEVATED, `[75,90)` HIGH and
`[90,100]` EXTREME: the bands are contiguous and exhaustive over `[0,100]`
(expressed by the exhaustive if-chain on the right-hand side, which picks
exactly one level for each score), and a score of exactly 100 falls through
every half-open band and is classified EXTREME by the fallback. -/
theorem getRiskLevel_bands (s : ℚ) (h0 : 0 ≤ s) (h1 : s ≤ 100) :
    getRiskLevel s =
      (if s < 20 then RiskKey.MINIMAL
       else if s < 40 then RiskKey.LOW
       else if s < 60 then RiskKey.MODERATE
       else if s < 75 then RiskKey.ELEVATED
       else if s < 90 then RiskKey.HIGH
       else RiskKey.EXTREME) ∧
    getRiskLevel 100 = RiskKey.EXTREME := by
  refine ⟨?_, by decide⟩
  by_cases h2 : s < 20
  · simp [getRiskLevel, riskLevels, List.find?, h0, h2]
  · by_cases h3 : s < 40
    · simp [getRiskLevel, riskLevels, List.find?, h0, h2, h3, le_of_not_lt h2]
    · by_cases h4 : s < 60
      · simp [getRiskLevel, riskLevels, List.find?, h0, h2, h3, h4, le_of_not_lt h3]
      · by_cases h5 : s < 75
        · simp [getRiskLevel, riskLevels, List.find?, h0, h2, h3, h4, h5,
            le_of_not_lt h4]
        · by_cases h6 : s < 90
          · simp [getRiskLevel, riskLevels, List.find?, h0, h2, h3, h4, h5, h6,
              le_of_not_lt h5]
          · by_cases h7 : s < 100
            · simp [getRiskLevel, riskLevels, List.find?, h0, h2, h3, h4, h5, h6, h7,
                le_of_not_lt h6]
            · simp [getRiskLevel, riskLevels, List.find?, h0, h2, h3, h4, h5, h6, h7]

/-- Witness for `getRiskLevel_bands` at the top boundary `s = 100`. -/
theorem getRiskLevel_bands_witness :
    (0:ℚ) ≤ 100 ∧ (100:ℚ) ≤ 100 ∧ getRiskLevel 100 = RiskKey.EXTREME :=
  ⟨by decide, by decide, (getRiskLevel_bands 100 (by decide) (by decide)).2⟩

end RiskScorer

namespace RiskScorer

/-- C4 — For every valid input (nonnegative bid-ask spread, sentiment
fields and contagion indicator), each of the five component scores lies in
`[0, 100]`, and the composite `totalRisk` equals the weighted sum
`0.35·market + 0.20·credit + 0.15·liquidity + 0.15·sentiment +
0.15·systemic` rounded to the nearest integer, which therefore also lies
in `[0, 100]`. -/
theorem calculateRiskScore_bounds (md : MarketData) (pf : RPortfolio)
    (news : Option NewsAnalysis)
    (hspread : 0 ≤ jsOr md.bidAskSpread (1/1000))
    (hnews : ∀ a, news = some a →
      0 ≤ jsOr (a.sentiment.getD ⟨none, none⟩).bearish 0 ∧
      0 ≤ calculateSentimentVolatility a)
    (hcont : 0 ≤ calculateContagionRisk md) :
    (0 ≤ (calculateRiskScore md pf news).market ∧
      (calculateRiskScore md pf news).market ≤ 100) ∧
    (0 ≤ (calculateRiskScore md pf news).credit ∧
      (calculateRiskScore md pf news).credit ≤ 100) ∧
    (0 ≤ (calculateRiskScore md pf news).liquidity ∧
      (calculateRiskScore md pf news).liquidity ≤ 100) ∧
    (0 ≤ (calculateRiskScore md pf news).sentiment ∧
      (calculateRiskScore md pf news).sentiment ≤ 100) ∧
    (0 ≤ (calculateRiskScore md pf news).systemic ∧
      (calculateRiskScore md pf news).systemic ≤ 100) ∧
    (calculateRiskScore md pf news).totalRisk =
      jsRound ((calculateRiskScore md pf news).market * (35/100)
        + (calculateRiskScore md pf news).credit * (20/100)
        + (calculateRiskScore md pf news).liquidity * (15/100)
        + (calculateRiskScore md pf news).sentiment * (15/100)
        + (calculateRiskScore md pf news).systemic * (15/100)) ∧
    0 ≤ (calculateRiskScore md pf news).totalRisk ∧
    (calculateRiskScore md pf news).totalRisk ≤ 100 := by
  have hm := calculateMarketRisk_bounds md pf
  have hc := calculateCreditRisk_bounds pf
  have hl := calculateLiquidityRisk_bounds md pf hspread
  have hs := calculateSentimentRisk_bounds news hnews
  have hy := calculateSystemicRisk_bounds md hcont
  have hw0 : 0 ≤ weightedRisk md pf news := by
    unfold weightedRisk
    have h1 := mul_nonneg hm.1 (show (0:ℚ) ≤ 35/100 by norm_num)
    have h2 := mul_nonneg hc.1 (show (0:ℚ) ≤ 20/100 by norm_num)
    have h3 := mul_nonneg hl.1 (show (0:ℚ) ≤ 15/100 by norm_num)
    have h4 := mul_nonneg hs.1 (show (0:ℚ) ≤ 15/100 by norm_num)
    have h5 := mul_nonneg hy.1 (show (0:ℚ) ≤ 15/100 by norm_num)
    linarith
  have hw1 : weightedRisk md pf news ≤ 100 := by
    unfold weightedRisk
    have h1 := mul_le_mul_of_nonneg_right hm.2 (show (0:ℚ) ≤ 35/100 by norm_num)
    have h2 := mul_le_mul_of_nonneg_right hc.2 (show (0:ℚ) ≤ 20/100 by norm_num)
    have h3 := mul_le_mul_of_nonneg_right hl.2 (show (0:ℚ) ≤ 15/100 by norm_num)
    have h4 := mul_le_mul_of_nonneg_right hs.2 (show (0:ℚ) ≤ 15/100 by norm_num)
    have h5 := mul_le_mul_of_nonneg_right hy.2 (show (0:ℚ) ≤ 15/100 by norm_num)
    linarith
  have hr := jsRound_bounds hw0 hw1
  exact ⟨hm, hc, hl, hs, hy, rfl, hr.1, hr.2⟩


/-- Witness for `calculateRiskScore_bounds` at a concrete valid input. -/
theorem calculateRiskScore_bounds_witness :
    0 ≤ jsOr c4MarketData.bidAskSpread (1/1000) ∧
    0 ≤ calculateContagionRisk c4MarketData ∧
    (0 ≤ (calculateRiskScore c4MarketData c4Portfolio none).totalRisk ∧
      (calculateRiskScore c4MarketData c4Portfolio none).totalRisk ≤ 100) :=
  ⟨by norm_num [c4MarketData, jsOr],
    by norm_num [c4MarketData, calculateContagionRisk, jsOr],
    (calculateRiskScore_bounds c4MarketData c4Portfolio none
      (by norm_num [c4MarketData, jsOr]) (fun a h => nomatch h)
      (by norm_num [c4MarketData, calculateContagionRisk, jsOr])).2.2.2.2.2.2⟩

end RiskScorer

namespace Backtest

/-- Flipping twice is the identity. -/
theorem Action.other_other (e : Action) : e.other.other = e := by
  cases e <;> rfl

/-- Appending one action to a list: the result alternates from `e` exactly
when the prefix does and the new action is the one expected at its parity. -/
theorem altFrom_append (a : Action) :
    ∀ (l : List Action) (e : Action),
      altFrom e (l ++ [a]) =
        (altFrom e l && decide (a = (if l.length % 2 = 0 then e else e.other))) := by
  intro l
  induction l with
  | nil =>
    intro e
    simp [altFrom]
  | cons b l' ih =>
    intro e
    simp only [List.cons_append, altFrom, List.length_cons, Bool.and_assoc,
      List.append_eq]
    rw [ih e.other]
    by_cases h : l'.length % 2 = 0
    · have h1 : ¬((l'.length + 1) % 2 = 0) := by omega
      simp [h, h1]
    · have h1 : (l'.length + 1) % 2 = 0 := by omega
      simp [h, h1, Action.other_other]


/-- Appending a BUY from a flat position preserves the invariant, for any
new non-flat position and any cash/portfolio values. -/
theorem tradesOk_buy (st : TState) (h : tradesOk st) (hflat : st.position = 0)
    (d : String) (p : ℚ) (sh : ℤ) (hsh : ¬sh = 0) (c : ℚ) (pv : List PV) :
    tradesOk ⟨sh, c, st.trades ++ [⟨d, .BUY, p, sh⟩], pv⟩ := by
  obtain ⟨halt, hpar⟩ := h
  have heven : st.trades.length % 2 = 0 := hpar.mpr hflat
  unfold tradesOk
  dsimp only
  constructor
  · rw [List.map_append]
    simp only [List.map_cons, List.map_nil]
    rw [altFrom_append, halt]
    simp [heven]
  · simp only [List.length_append, List.length_cons, List.length_nil]
    constructor
    · intro hc; omega
    · intro hc; exact absurd hc hsh

/-- Appending a SELL from a non-flat position preserves the invariant: the
position becomes flat. -/
theorem tradesOk_sell (st : TState) (h : tradesOk st) (hlong : ¬st.position = 0)
    (d : String) (p : ℚ) (sh : ℤ) (c : ℚ) (pv : List PV) :
    tradesOk ⟨0, c, st.trades ++ [⟨d, .SELL, p, sh⟩], pv⟩ := by
  obtain ⟨halt, hpar⟩ := h
  have hodd : ¬(st.trades.length % 2 = 0) := fun he => hlong (hpar.mp he)
  unfold tradesOk
  dsimp only
  constructor
  · rw [List.map_append]
    simp only [List.map_cons, List.map_nil]
    rw [altFrom_append, halt]
    simp [hodd, Action.other]
  · simp only [List.length_append, List.length_cons, List.length_nil]
    constructor
    · intro _; trivial
    · intro _; omega

/-- Source `tradeStep` preserves the invariant. -/
theorem tradeStep_ok (inp : StepInput) (st : TState) (h : tradesOk st) :
    tradesOk (tradeStep inp st) := by
  unfold tradeStep
  by_cases hact : inp.active = true
  · simp only [hact, Bool.not_true, Bool.false_eq_true, if_false]
    by_cases hbuy : st.position = 0 ∧ inp.buySig = true
    · simp only [if_pos hbuy]
      by_cases hsh : 0 < ⌊st.cash / inp.price⌋
      · simp only [if_pos hsh]
        exact tradesOk_buy st h hbuy.1 inp.date inp.price _ (by omega) _ _
      · simp only [if_neg hsh]
        exact h
    · simp only [if_neg hbuy]
      by_cases hsell : 0 < st.position ∧ inp.sellSig = true
      · simp only [if_pos hsell]
        exact tradesOk_sell st h (by omega) inp.date inp.price st.position _ _
      · simp only [if_neg hsell]
        exact h
  · simp only [Bool.not_eq_true] at hact
    simp only [hact, Bool.not_false, if_true]
    exact h

/-- Source `runTrades` preserves the invariant. -/
theorem runTrades_ok (l : List StepInput) :
    ∀ st : TState, tradesOk st → tradesOk (runTrades st l) := by
  induction l with
  | nil => intro st h; exact h
  | cons inp rest ih => intro st h; exact ih _ (tradeStep_ok inp st h)

/-- The initial loop state satisfies the invariant. -/
theorem tradesOk_init (cash : ℚ) : tradesOk ⟨0, cash, [], []⟩ :=
  ⟨rfl, by simp⟩

end Backtest

namespace Backtest

/-- C5 — Every one of the four strategies holds at most one open
position at any time: a BUY is emitted only from a flat position and a
SELL only from a long one, so the emitted trade list strictly alternates
BUY, SELL, BUY, … starting with BUY, for every price series and parameter
choice.  (For the strategies that throw on an empty series the property is
stated on every successfully produced result via `Option.all`.) -/
theorem strategies_position_flat :
    (∀ (data : List Bar) (params : Params),
      ((buyAndHoldStrategy data params).all fun r => tradesAlternate r.trades) = true) ∧
    (∀ (data : List Bar) (params : Params),
      tradesAlternate (momentumStrategy data params).trades = true) ∧
    (∀ (data : List Bar) (params : Params),
      ((meanReversionStrategy data params).all fun r => tradesAlternate r.trades) = true) ∧
    (∀ (data : List Bar) (params : Params),
      ((macdStrategy data params).all fun r => tradesAlternate r.trades) = true) := by
  refine ⟨?_, ?_, ?_, ?_⟩
  · intro data params
    cases data with
    | nil => rfl
    | cons d0 rest =>
      simp [buyAndHoldStrategy, tradesAlternate, altFrom]
  · intro data params
    exact (runTrades_ok _ _ (tradesOk_init _)).1
  · intro data params
    cases data with
    | nil => rfl
    | cons d0 rest =>
      simp only [meanReversionStrategy, Option.all_some]
      exact (runTrades_ok _ _ (tradesOk_init _)).1
  · intro data params
    cases data with
    | nil => rfl
    | cons d0 rest =>
      simp only [macdStrategy, Option.all_some]
      exact (runTrades_ok _ _ (tradesOk_init _)).1


/-- C2 counterexample — On a one-day series whose bar opens at 50 and
closes at 100, the single buy-and-hold trade is priced at the *closing*
price 100, not the day's opening price 50: the claim that the BUY happens
"at that day's opening price" is false on this input. -/
theorem buyAndHold_buys_at_close_not_open :
    ((buyAndHoldStrategy [c2Bar] noParams).map
      fun r => r.trades.map Trade.price) = some [100] ∧
    c2Bar.openP = 50 ∧ ((100:ℚ) ≠ 50) := by
  refine ⟨?_, rfl, by norm_num⟩
  simp [buyAndHoldStrategy, c2Bar, noParams]

/-- C2 (amended) — For every non-empty price series, buyAndHold
produces exactly one trade: a BUY on day 0 at that day's *closing* price,
with `shares = ⌊initialCapital / buy price⌋`; it never transitions again,
so the trade list contains no SELL. -/
theorem buyAndHold_single_trade (d0 : Bar) (rest : List Bar) (params : Params) :
    ∃ r, buyAndHoldStrategy (d0 :: rest) params = some r ∧
      r.trades = [⟨d0.date, .BUY, d0.close,
        ⌊jsOr params.initialCapital 10000 / d0.close⌋⟩] ∧
      ∀ t ∈ r.trades, t.action = Action.BUY := by
  refine ⟨_, rfl, rfl, ?_⟩
  intro t ht
  simp only [List.mem_singleton] at ht
  subst ht
  rfl

/-- C10 — For every non-empty price series with at most `maPeriod`
(default 20) bars, the momentum strategy's main loop never runs: it
returns empty `trades` and `portfolioValues`; the performance-metric
computation then reads element 0 of the empty equity curve and throws, so
the backtest run produces no `BacktestResult`.  The meanReversion strategy
behaves the same for series with at most `lookback` (default 20) bars. -/
theorem shortSeries_backtest_error (data : List Bar) (params : Params)
    (hne : data ≠ []) :
    (data.length ≤ jsOrNat params.maPeriod 20 →
      (momentumStrategy data params).trades = [] ∧
      (momentumStrategy data params).portfolioValues = [] ∧
      calculatePerformanceMetrics (momentumStrategy data params)
        (jsOr params.initialCapital 10000) = none ∧
      runBacktest "momentum" data params = none) ∧
    (data.length ≤ jsOrNat params.lookback 20 →
      (∃ r, meanReversionStrategy data params = some r ∧
        r.trades = [] ∧ r.portfolioValues = [] ∧
        calculatePerformanceMetrics r (jsOr params.initialCapital 10000) = none) ∧
      runBacktest "meanReversion" data params = none) := by
  obtain ⟨d, rest, rfl⟩ := List.exists_cons_of_ne_nil hne
  constructor
  · intro hma
    have hdm : (d :: rest).drop (jsOrNat params.maPeriod 20) = [] :=
      List.drop_eq_nil_of_le hma
    have h1 : momentumStrategy (d :: rest) params =
        ⟨[], [], jsOr params.initialCapital 10000⟩ := by
      simp [momentumStrategy, hdm, momentumSteps, runTrades]
    refine ⟨by rw [h1], by rw [h1], by rw [h1]; rfl, ?_⟩
    unfold runBacktest
    rw [h1]
    simp [calculatePerformanceMetrics]
  · intro hlb
    have hdl : (d :: rest).drop (jsOrNat params.lookback 20) = [] :=
      List.drop_eq_nil_of_le hlb
    have h2 : meanReversionStrategy (d :: rest) params =
        some ⟨[], [], jsOr params.initialCapital 10000⟩ := by
      simp [meanReversionStrategy, hdl, meanReversionSteps, runTrades]
    refine ⟨⟨_, h2, rfl, rfl, rfl⟩, ?_⟩
    unfold runBacktest
    rw [h2]
    simp [calculatePerformanceMetrics]

/-- Witness for `shortSeries_backtest_error`: a one-bar series with the
default parameters. -/
theorem shortSeries_backtest_error_witness :
    ([(⟨"d", 1, 1, 1, 1, 0⟩ : Bar)] ≠ []) ∧
    ([(⟨"d", 1, 1, 1, 1, 0⟩ : Bar)].length ≤ jsOrNat noParams.maPeriod 20) ∧
    ([(⟨"d", 1, 1, 1, 1, 0⟩ : Bar)].length ≤ jsOrNat noParams.lookback 20) ∧
    runBacktest "momentum" [(⟨"d", 1, 1, 1, 1, 0⟩ : Bar)] noParams = none ∧
    runBacktest "meanReversion" [(⟨"d", 1, 1, 1, 1, 0⟩ : Bar)] noParams = none := by
  have h := shortSeries_backtest_error [(⟨"d", 1, 1, 1, 1, 0⟩ : Bar)] noParams
    (by decide)
  exact ⟨by decide, by decide, by decide, (h.1 (by decide)).2.2.2,
    (h.2 (by decide)).2⟩

end Backtest

namespace PortfolioAnalysis

/-- C7 — For a `null` or empty holdings list, the analyzer returns the
documented zeroed result record — all metrics 0, empty diversification
maps, empty pros/cons and recommendations — and, being a total function,
does not throw. -/
theorem analyzePortfolio_empty (marketData : Bool) (rand : List ℚ) :
    analyzePortfolio none marketData rand = getEmptyAnalysis ∧
    analyzePortfolio (some []) marketData rand = getEmptyAnalysis ∧
    getEmptyAnalysis =
      ⟨⟨0, 0, 0, 0, 0, 0, 0, 0⟩, ⟨[], [], [], 0, 0, 0, false⟩, [], [], []⟩ := by
  refine ⟨rfl, ?_, rfl⟩
  simp [analyzePortfolio]

/-- C8 — Whenever the volatility passed to the Sharpe computation is 0,
the Sharpe ratio is exactly 0 for any returns list (no division is
performed); moreover a returns list with fewer than two elements has
computed volatility 0, and a zero computed volatility also forces a zero
Sharpe ratio when the volatility argument is omitted. -/
theorem calculateSharpeRatio_zero_vol (returns : List ℚ) (vol : ℝ)
    (hvol : vol = 0) :
    calculateSharpeRatio returns (some vol) = 0 ∧
    (returns.length < 2 → calculateVolatility returns = 0) ∧
    (calculateVolatility returns = 0 → calculateSharpeRatio returns none = 0) := by
  subst hvol
  refine ⟨?_, ?_, ?_⟩
  · unfold calculateSharpeRatio
    by_cases h : returns = []
    · simp [h]
    · simp [h]
  · intro h
    unfold calculateVolatility
    simp [h]
  · intro h
    unfold calculateSharpeRatio
    by_cases he : returns = []
    · simp [he]
    · simp [he, h]

/-- Witness for `calculateSharpeRatio_zero_vol` on the one-element returns
list `[5]` with volatility `0`. -/
theorem calculateSharpeRatio_zero_vol_witness :
    ((0:ℝ) = 0) ∧ calculateSharpeRatio [5] (some 0) = 0 ∧
    ([5] : List ℚ).length < 2 ∧ calculateVolatility [5] = 0 := by
  have h := calculateSharpeRatio_zero_vol [5] 0 rfl
  exact ⟨rfl, h.1, by decide, h.2.1 (by decide)⟩

/-- Folding `+ f w` equals the initial value plus the sum of the images. -/
theorem foldl_add_map (f : ℚ → ℚ) :
    ∀ (l : List ℚ) (a : ℚ), l.foldl (fun s w => s + f w) a = a + (l.map f).sum := by
  intro l
  induction l with
  | nil => intro a; simp
  | cons x xs ih =>
    intro a
    simp only [List.foldl_cons, List.map_cons, List.sum_cons, ih]
    ring

/-- The Herfindahl fold is the sum of squared weights. -/
theorem calculateHerfindahlIndex_eq (weights : List ℚ) :
    calculateHerfindahlIndex weights = (weights.map fun w => w * w).sum := by
  unfold calculateHerfindahlIndex
  simpa using foldl_add_map (fun w => w * w) weights 0

/-- Folding the asset values equals the initial value plus their sum. -/
theorem foldl_add_value :
    ∀ (l : List Asset) (a : ℚ),
      l.foldl (fun s asset => s + jsOr asset.totalValue 0) a
        = a + (l.map fun x => jsOr x.totalValue 0).sum := by
  intro l
  induction l with
  | nil => intro a; simp
  | cons x xs ih =>
    intro a
    simp only [List.foldl_cons, List.map_cons, List.sum_cons, ih]
    ring

/-- The total-value fold is the sum of the per-asset values. -/
theorem calculateTotalValue_eq (portfolio : List Asset) :
    calculateTotalValue portfolio =
      (portfolio.map fun a => jsOr a.totalValue 0).sum := by
  unfold calculateTotalValue
  simpa using foldl_add_value portfolio 0

/-- Dividing every value by a constant divides the sum. -/
theorem map_div_sum (V : ℚ) :
    ∀ (l : List Asset),
      (l.map fun a => jsOr a.totalValue 0 / V).sum
        = (l.map fun a => jsOr a.totalValue 0).sum / V := by
  intro l
  induction l with
  | nil => simp
  | cons x xs ih => simp [ih, add_div]

/-- For a list of positive numbers: the sum of squares is positive, at most
the square of the sum, and equal to it only for a single element. -/
theorem sum_sq_le_sq_sum :
    ∀ (l : List ℚ), (∀ x ∈ l, 0 < x) →
      (l.map fun w => w * w).sum ≤ l.sum * l.sum ∧
      (l ≠ [] → 0 < (l.map fun w => w * w).sum) ∧
      (2 ≤ l.length → (l.map fun w => w * w).sum < l.sum * l.sum) := by
  intro l
  induction l with
  | nil => intro _; refine ⟨by simp, by simp, by simp⟩
  | cons x xs ih =>
    intro hpos
    have hx : 0 < x := hpos x (List.mem_cons_self x xs)
    have hxs : ∀ y ∈ xs, 0 < y := fun y hy => hpos y (List.mem_cons_of_mem x hy)
    obtain ⟨ih1, ih2, ih3⟩ := ih hxs
    have hT : 0 ≤ xs.sum := List.sum_nonneg fun y hy => (hxs y hy).le
    have hS : 0 ≤ (xs.map fun w => w * w).sum :=
      List.sum_nonneg (by
        intro y hy
        obtain ⟨w, -, rfl⟩ := List.mem_map.mp hy
        exact mul_self_nonneg w)
    refine ⟨?_, fun _ => ?_, fun hlen => ?_⟩
    · simp only [List.map_cons, List.sum_cons]
      nlinarith
    · simp only [List.map_cons, List.sum_cons]
      nlinarith
    · have hxs_ne : xs ≠ [] := by
        intro hc
        rw [hc] at hlen
        simp at hlen
      have hTpos : 0 < xs.sum := List.sum_pos xs hxs hxs_ne
      simp only [List.map_cons, List.sum_cons]
      nlinarith

/-- The sum of value weights is 1 when the total is nonzero. -/
theorem sum_weights_eq_one (portfolio : List Asset)
    (hV : calculateTotalValue portfolio ≠ 0) :
    (calculateWeights portfolio (calculateTotalValue portfolio)).sum = 1 := by
  unfold calculateWeights
  rw [if_neg hV]
  rw [map_div_sum, ← calculateTotalValue_eq, div_self hV]

end PortfolioAnalysis

namespace PortfolioAnalysis

/-- C9 — For every non-empty holdings list whose positions all have
positive market value, the Herfindahl index over the value weights lies in
`(0, 1]` and equals 1 exactly for a single holding; and on the concrete
two-equal-weight portfolio the analyzer reports `herfindahlIndex = 0.5`,
`effectiveN = 2` and `isWellDiversified = false`. -/
theorem herfindahl_in_unit (portfolio : List Asset)
    (hne : portfolio ≠ [])
    (hpos : ∀ a ∈ portfolio, 0 < jsOr a.totalValue 0) :
    (0 < calculateHerfindahlIndex
        (calculateWeights portfolio (calculateTotalValue portfolio)) ∧
      calculateHerfindahlIndex
        (calculateWeights portfolio (calculateTotalValue portfolio)) ≤ 1 ∧
      (calculateHerfindahlIndex
          (calculateWeights portfolio (calculateTotalValue portfolio)) = 1 ↔
        portfolio.length = 1)) ∧
    (analyzeDiversification c9Portfolio
        (calculateWeights c9Portfolio (calculateTotalValue c9Portfolio))).herfindahlIndex
      = 1/2 ∧
    (analyzeDiversification c9Portfolio
        (calculateWeights c9Portfolio (calculateTotalValue c9Portfolio))).effectiveN
      = 2 ∧
    (analyzeDiversification c9Portfolio
        (calculateWeights c9Portfolio (calculateTotalValue c9Portfolio))).isWellDiversified
      = false := by
  have hVpos : 0 < calculateTotalValue portfolio := by
    rw [calculateTotalValue_eq]
    refine List.sum_pos _ ?_ ?_
    · intro v hv
      obtain ⟨a, ha, rfl⟩ := List.mem_map.mp hv
      exact hpos a ha
    · simpa using hne
  have hV : calculateTotalValue portfolio ≠ 0 := ne_of_gt hVpos
  have hw : calculateWeights portfolio (calculateTotalValue portfolio) =
      portfolio.map fun a => jsOr a.totalValue 0 / calculateTotalValue portfolio := by
    unfold calculateWeights
    rw [if_neg hV]
  have hwpos : ∀ x ∈ calculateWeights portfolio (calculateTotalValue portfolio), 0 < x := by
    rw [hw]
    intro x hx
    obtain ⟨a, ha, rfl⟩ := List.mem_map.mp hx
    exact div_pos (hpos a ha) hVpos
  have hwsum := sum_weights_eq_one portfolio hV
  have hwne : calculateWeights portfolio (calculateTotalValue portfolio) ≠ [] := by
    rw [hw]
    simpa using hne
  have hwlen : (calculateWeights portfolio (calculateTotalValue portfolio)).length =
      portfolio.length := by
    rw [hw, List.length_map]
  obtain ⟨hle, hpos', hlt⟩ :=
    sum_sq_le_sq_sum (calculateWeights portfolio (calculateTotalValue portfolio)) hwpos
  rw [calculateHerfindahlIndex_eq]
  refine ⟨⟨hpos' hwne, ?_, ?_⟩, ?_, ?_, ?_⟩
  · calc ((calculateWeights portfolio (calculateTotalValue portfolio)).map
        fun w => w * w).sum
        ≤ _ * _ := hle
      _ = 1 := by rw [hwsum]; norm_num
  · constructor
    · intro h1
      by_contra hc
      have hlen0 : portfolio.length ≠ 0 := fun h0 => hne (List.length_eq_zero.mp h0)
      have h2 : 2 ≤ (calculateWeights portfolio (calculateTotalValue portfolio)).length := by
        rw [hwlen]
        omega
      have h3 := hlt h2
      rw [hwsum, h1] at h3
      norm_num at h3
    · intro h1
      obtain ⟨w0, hw0⟩ := List.length_eq_one.mp (hwlen.trans h1)
      rw [hw0] at hwsum ⊢
      simp only [List.sum_singleton] at hwsum
      simp [hwsum]
  · norm_num [analyzeDiversification, calculateHerfindahlIndex, calculateWeights,
      calculateTotalValue, c9Portfolio, c9Asset, jsOr]
  · norm_num [analyzeDiversification, calculateHerfindahlIndex, calculateWeights,
      calculateTotalValue, c9Portfolio, c9Asset, jsOr]
  · norm_num [analyzeDiversification, calculateHerfindahlIndex, calculateWeights,
      calculateTotalValue, c9Portfolio, c9Asset, jsOr]

/-- Witness for `herfindahl_in_unit`: the two-equal-holdings portfolio. -/
theorem herfindahl_in_unit_witness :
    (c9Portfolio ≠ []) ∧ (∀ a ∈ c9Portfolio, 0 < jsOr a.totalValue 0) ∧
    (0 < calculateHerfindahlIndex
        (calculateWeights c9Portfolio (calculateTotalValue c9Portfolio)) ∧
      calculateHerfindahlIndex
        (calculateWeights c9Portfolio (calculateTotalValue c9Portfolio)) ≤ 1 ∧
      (calculateHerfindahlIndex
          (calculateWeights c9Portfolio (calculateTotalValue c9Portfolio)) = 1 ↔
        c9Portfolio.length = 1)) := by
  have hne : c9Portfolio ≠ [] := by simp [c9Portfolio]
  have hpos : ∀ a ∈ c9Portfolio, 0 < jsOr a.totalValue 0 := by
    intro a ha
    simp only [c9Portfolio, List.mem_cons, List.mem_singleton, List.not_mem_nil,
      or_false] at ha
    rcases ha with rfl | rfl <;> norm_num [c9Asset, jsOr]
  exact ⟨hne, hpos, (herfindahl_in_unit c9Portfolio hne hpos).1⟩

end PortfolioAnalysis

namespace MonteCarlo

/-- C6 counterexample — With 2 simulations,
`Math.floor(simulations * 0.05) = 0`: the worst-5% bucket is empty and the
JS `CVaR95` is `0 / 0 = NaN` (`none` here), so "VaR95 ≤ CVaR95 in absolute
loss terms, always" fails at this simulation result — the claimed
inequality does not even denote. -/
theorem mcCVaR95_nan_small_sample :
    mcCVaR95 [100, 110] = none ∧ ([100, 110] : List ℚ).length = 2 := by
  constructor
  · norm_num [mcCVaR95]
  · rfl

/-- C6 (amended) — For every simulation result with at least one path,
`probabilityOfLoss` lies in `[0, 1]`; and whenever at least 20 paths were
simulated (so the worst-5% bucket is non-empty), `CVaR95` is defined and
the loss at VaR95 is at most the loss at CVaR95:
`currentValue − VaR95 ≤ currentValue − CVaR95`.  (For fewer than 20 paths
`CVaR95` is `NaN`, see the counterexample.) -/
theorem mc_var_cvar_loss (currentValue : ℚ) (finals : List ℚ)
    (hne : 1 ≤ finals.length) :
    (0 ≤ mcProbabilityOfLoss currentValue finals ∧
      mcProbabilityOfLoss currentValue finals ≤ 1) ∧
    (20 ≤ finals.length →
      ∃ c, mcCVaR95 finals = some c ∧
        currentValue - mcVaR95 finals ≤ currentValue - c) := by
  constructor
  · unfold mcProbabilityOfLoss
    have hlen : (0:ℚ) < (finals.length : ℚ) := by
      exact_mod_cast Nat.lt_of_lt_of_le Nat.zero_lt_one hne
    constructor
    · positivity
    · rw [div_le_one hlen]
      exact_mod_cast List.length_filter_le _ finals
  · intro h20
    have hk1 : 1 ≤ finals.length / 20 := Nat.one_le_div_iff (by norm_num) |>.mpr h20
    have hk0 : finals.length / 20 ≠ 0 := by omega
    have hklt : finals.length / 20 < finals.length :=
      Nat.div_lt_self (by omega) (by norm_num)
    have hslen : (mcSortedFinals finals).length = finals.length :=
      (List.mergeSort_perm finals _).length_eq
    have hsorted : (mcSortedFinals finals).Sorted (· ≤ ·) :=
      List.sorted_mergeSort' finals
    have hklt' : finals.length / 20 < (mcSortedFinals finals).length := by
      rw [hslen]; exact hklt
    refine ⟨((mcSortedFinals finals).take (finals.length / 20)).sum /
      ((finals.length / 20 : ℕ) : ℚ), ?_, ?_⟩
    · unfold mcCVaR95
      rw [if_neg hk0]
    · rw [sub_le_sub_iff_left]
      have hvar : mcVaR95 finals = (mcSortedFinals finals)[finals.length / 20] := by
        unfold mcVaR95
        exact List.getD_eq_getElem _ 0 hklt'
      have hmem : (mcSortedFinals finals)[finals.length / 20] ∈
          (mcSortedFinals finals).drop (finals.length / 20) := by
        rw [List.drop_eq_getElem_cons hklt']
        exact List.mem_cons_self _ _
      have hbound : ∀ x ∈ (mcSortedFinals finals).take (finals.length / 20),
          x ≤ (mcSortedFinals finals)[finals.length / 20] := fun x hx =>
        hsorted.rel_of_mem_take_of_mem_drop hx hmem
      have hsum := List.sum_le_card_nsmul _ _ hbound
      have htlen : ((mcSortedFinals finals).take (finals.length / 20)).length =
          finals.length / 20 := by
        simp [List.length_take]
        omega
      rw [htlen] at hsum
      have hkpos : (0:ℚ) < ((finals.length / 20 : ℕ) : ℚ) := by
        exact_mod_cast Nat.lt_of_lt_of_le Nat.zero_lt_one hk1
      rw [hvar, div_le_iff₀ hkpos]
      calc ((mcSortedFinals finals).take (finals.length / 20)).sum
          ≤ (finals.length / 20) • (mcSortedFinals finals)[finals.length / 20] := hsum
        _ = ((finals.length / 20 : ℕ) : ℚ) *
            (mcSortedFinals finals)[finals.length / 20] := by
            rw [nsmul_eq_mul]
        _ = (mcSortedFinals finals)[finals.length / 20] *
            ((finals.length / 20 : ℕ) : ℚ) := by ring

/-- Witness for `mc_var_cvar_loss`: 20 identical final path values. -/
theorem mc_var_cvar_loss_witness :
    (1 ≤ (List.replicate 20 (100:ℚ)).length) ∧
    (0 ≤ mcProbabilityOfLoss 100 (List.replicate 20 (100:ℚ)) ∧
      mcProbabilityOfLoss 100 (List.replicate 20 (100:ℚ)) ≤ 1) ∧
    (∃ c, mcCVaR95 (List.replicate 20 (100:ℚ)) = some c ∧
      100 - mcVaR95 (List.replicate 20 (100:ℚ)) ≤ 100 - c) := by
  have h := mc_var_cvar_loss 100 (List.replicate 20 (100:ℚ)) (by decide)
  exact ⟨by decide, h.1, h.2 (by decide)⟩

end MonteCarlo

namespace MonteCarlo

/-- C1 counterexample — `performMonteCarloSimulation` does *not*
replace an invalid `currentValue` by the documented default 1,000,000: a
zero `currentValue` makes it return the invalid-portfolio error record
without running the simulation.  Moreover a *negative* `expectedReturn` is
kept as-is (only zero/`NaN` are replaced by 0.08), contradicting the
claimed zero/negative/NaN policy for that field as well. -/
theorem mc_currentValue_not_defaulted :
    sanitizeMonteCarloInputs ⟨.num 0, .num (8/100), .num (15/100)⟩
        (.num 252) (.num 1000) true = .error mcInvalidPortfolioResult ∧
    sanitizeMonteCarloInputs ⟨.num 1000000, .num (-(5/100)), .num (15/100)⟩
        (.num 252) (.num 1000) true
      = .ok ⟨1000000, -(5/100), 15/100, 252, 1000⟩ ∧
    ((-(5/100) : ℚ) ≠ 8/100) := by
  refine ⟨?_, ?_, by norm_num⟩
  · norm_num [sanitizeMonteCarloInputs, JsNum.falsy, JsNum.le0, JsNum.isNaNb,
      JsNum.val]
  · norm_num [sanitizeMonteCarloInputs, JsNum.falsy, JsNum.le0, JsNum.isNaNb,
      JsNum.val]

/-- C1 (amended) — For every call with a *positive finite*
`currentValue`, the validation succeeds and applies the documented
defaults: `expectedReturn` 0.08 on zero/`NaN` only (a negative finite
value is kept), `volatility` 0.15 on zero/negative/`NaN`, `horizonDays`
252 and `numSimulations` 1000 on falsy/non-positive values, after which
the simulation proceeds on the sanitized record; whereas a zero, negative,
`NaN` or missing `currentValue` short-circuits to the invalid-portfolio
error record without running the simulation (it is *not* replaced by
1,000,000). -/
theorem mc_sanitize_policy (pf : MCPortfolio) (hd ns : JsNum) :
    (∀ q : ℚ, pf.currentValue = .num q → 0 < q →
      ∃ s, sanitizeMonteCarloInputs pf hd ns true = .ok s ∧
        s.currentValue = q ∧
        ((pf.expectedReturn = .nan ∨ pf.expectedReturn = .num 0) →
          s.expectedReturn = 8/100) ∧
        (∀ r : ℚ, pf.expectedReturn = .num r → r ≠ 0 → s.expectedReturn = r) ∧
        ((pf.volatility = .nan ∨ ∃ v : ℚ, pf.volatility = .num v ∧ v ≤ 0) →
          s.volatility = 15/100) ∧
        (∀ v : ℚ, pf.volatility = .num v → 0 < v → s.volatility = v) ∧
        ((hd = .nan ∨ ∃ h : ℚ, hd = .num h ∧ h ≤ 0) → s.horizonDays = 252) ∧
        (∀ h : ℚ, hd = .num h → 0 < h → s.horizonDays = h) ∧
        ((ns = .nan ∨ ∃ n : ℚ, ns = .num n ∧ n ≤ 0) → s.numSimulations = 1000) ∧
        (∀ n : ℚ, ns = .num n → 0 < n → s.numSimulations = n)) ∧
    ((pf.currentValue.falsy || pf.currentValue.le0) = true →
      sanitizeMonteCarloInputs pf hd ns true = .error mcInvalidPortfolioResult) := by
  constructor
  · intro q hq hqpos
    have hguard : (pf.currentValue.falsy || pf.currentValue.le0) = false := by
      rw [hq]
      simp [JsNum.falsy, JsNum.le0]
      constructor
      · exact ne_of_gt hqpos
      · exact hqpos
    refine ⟨⟨q,
      (if pf.expectedReturn.falsy || pf.expectedReturn.isNaNb
        then JsNum.num (8/100) else pf.expectedReturn).val,
      (if pf.volatility.falsy || pf.volatility.isNaNb || pf.volatility.le0
        then JsNum.num (15/100) else pf.volatility).val,
      (if hd.falsy || hd.le0 then JsNum.num 252 else hd).val,
      (if ns.falsy || ns.le0 then JsNum.num 1000 else ns).val⟩,
      ?_, rfl, ?_, ?_, ?_, ?_, ?_, ?_, ?_, ?_⟩
    · unfold sanitizeMonteCarloInputs
      rw [hguard, hq]
      simp [JsNum.val]
    · rintro (her | her) <;> simp [her, JsNum.falsy, JsNum.isNaNb, JsNum.val]
    · intro r her hr0
      simp [her, JsNum.falsy, JsNum.isNaNb, JsNum.val, hr0]
    · rintro (hv | ⟨v, hv, hv0⟩)
      · simp [hv, JsNum.falsy, JsNum.isNaNb, JsNum.le0, JsNum.val]
      · simp [hv, JsNum.falsy, JsNum.isNaNb, JsNum.le0, JsNum.val, hv0]
    · intro v hv hv0
      simp [hv, JsNum.falsy, JsNum.isNaNb, JsNum.le0, JsNum.val,
        ne_of_gt hv0, not_le.mpr hv0]
    · rintro (hh | ⟨h, hh, hh0⟩)
      · simp [hh, JsNum.falsy, JsNum.le0, JsNum.val]
      · simp [hh, JsNum.falsy, JsNum.le0, JsNum.val, hh0]
    · intro h hh hh0
      simp [hh, JsNum.falsy, JsNum.le0, JsNum.val, ne_of_gt hh0, not_le.mpr hh0]
    · rintro (hn | ⟨n, hn, hn0⟩)
      · simp [hn, JsNum.falsy, JsNum.le0, JsNum.val]
      · simp [hn, JsNum.falsy, JsNum.le0, JsNum.val, hn0]
    · intro n hn hn0
      simp [hn, JsNum.falsy, JsNum.le0, JsNum.val, ne_of_gt hn0, not_le.mpr hn0]
  · intro hguard
    unfold sanitizeMonteCarloInputs
    rw [hguard]
    simp

/-- Witness for `mc_sanitize_policy`: a positive `currentValue`, `NaN`
`expectedReturn` and `horizonDays`, and zero `volatility` and
`numSimulations` — every defaultable field receives its default. -/
theorem mc_sanitize_policy_witness :
    ((0:ℚ) < 1000000) ∧
    sanitizeMonteCarloInputs ⟨.num 1000000, .nan, .num 0⟩ .nan (.num 0) true
      = .ok ⟨1000000, 8/100, 15/100, 252, 1000⟩ := by
  obtain ⟨s, hok, hcv, hdef, -, hvol, -, hhd, -, hns, -⟩ :=
    (mc_sanitize_policy ⟨.num 1000000, .nan, .num 0⟩ .nan (.num 0)).1
      1000000 rfl (by norm_num)
  refine ⟨by norm_num, ?_⟩
  have h2 := hdef (Or.inl rfl)
  have h3 := hvol (Or.inr ⟨0, rfl, le_rfl⟩)
  have h4 := hhd (Or.inl rfl)
  have h5 := hns (Or.inr ⟨0, rfl, le_rfl⟩)
  have hs : s = ⟨1000000, 8/100, 15/100, 252, 1000⟩ := by
    cases s
    simp_all
  rw [hs] at hok
  exact hok

end MonteCarlo
